import Mathlib

/-!
Shallow embedding of src/cvmfs/publisher.py.

The publisher manipulates a POSIX filesystem, a process-global transaction
flag, and three external collaborators invoked through os.system
(cvmfs_server transaction / publish / abort and the singularity builder).

The embedding models:
  * the filesystem as a finite association list from path strings to
    entries (directory with mode, regular file with mode, symlink with
    target string), with os.path.exists / islink / readlink / symlink /
    unlink / makedirs / chmod translated over it;
  * os.path.join and os.path.split (posixpath semantics) over strings;
  * the external calls as reads of pre-decided exit statuses stored in a
    World record, with every issued external command recorded in an event
    trace so that theorems can speak about which commands were invoked;
  * Python functions returning None on fall-through as returning
    Option Nat with none for the implicit None (None and 0 are both falsy
    to the single caller, which tests the value with "if retval:").
-/

namespace CvmfsPublisher

/-- A filesystem object: directory or regular file with a permission mode
(the S_IMODE bits, as a Nat), or a symbolic link storing its target path
verbatim. -/
inductive Entry where
  | dir (mode : Nat)
  | file (mode : Nat)
  | symlink (target : String)
deriving Repr, DecidableEq

/-- The filesystem: a finite map from absolute-or-relative path strings to
entries, as an association list (first binding wins). -/
def Fs : Type := List (String × Entry)

instance : DecidableEq Fs := by unfold Fs; infer_instance

instance : Repr Fs := by unfold Fs; infer_instance

instance : Membership (String × Entry) Fs := by unfold Fs; infer_instance

/-- Look a path up in the filesystem (the raw name, no symlink following). -/
def Fs.lookup (fs : Fs) (p : String) : Option Entry :=
  (List.find? (fun e => e.1 == p) fs).map (·.2)

/-- Bind a path to an entry, replacing any previous binding. -/
def Fs.insert (fs : Fs) (p : String) (e : Entry) : Fs :=
  (p, e) :: List.filter (fun x => x.1 != p) fs

/-- Remove a path binding (os.unlink). -/
def Fs.remove (fs : Fs) (p : String) : Fs :=
  List.filter (fun x => x.1 != p) fs

/-- os.path.exists: true when the path resolves, following symlinks, to an
existing object.  Fuel bounds symlink-chain length, as the kernel bounds
link resolution (a cycle yields ELOOP, which os.path.exists reports as
False). -/
def Fs.existsPath (fs : Fs) : Nat → String → Bool
  | 0, _ => false
  | fuel + 1, p =>
    match fs.lookup p with
    | none => false
    | some (Entry.symlink t) => fs.existsPath fuel t
    | some _ => true

/-- os.path.exists with the standard resolution depth. -/
def osPathExists (fs : Fs) (p : String) : Bool :=
  fs.existsPath 40 p

/-- os.path.islink: the name itself is bound to a symlink. -/
def osIsLink (fs : Fs) (p : String) : Bool :=
  match fs.lookup p with
  | some (Entry.symlink _) => true
  | _ => false

/-- os.readlink: target of the symlink bound at the name. -/
def osReadLink (fs : Fs) (p : String) : Option String :=
  match fs.lookup p with
  | some (Entry.symlink t) => some t
  | _ => none

/-- os.chmod on an existing entry (sets the mode bits; a symlink binding is
left as is, the call sites only chmod plain files and directories obtained
from lstat). -/
def Fs.chmod (fs : Fs) (p : String) (m : Nat) : Fs :=
  List.map (fun x =>
    if x.1 == p then
      match x.2 with
      | Entry.dir _ => (x.1, Entry.dir m)
      | Entry.file _ => (x.1, Entry.file m)
      | Entry.symlink t => (x.1, Entry.symlink t)
    else x) fs

/-- str.startswith, computed on the character list (the core String
primitives do not reduce inside the kernel, so the embedding carries its
own). -/
def strStartsWith (s pre : String) : Bool :=
  List.isPrefixOf pre.data s.data

/-- str.endswith, computed on the character list. -/
def strEndsWith (s suf : String) : Bool :=
  List.isSuffixOf suf.data s.data

/-- s[0:n], computed on the character list. -/
def strTake (s : String) (n : Nat) : String :=
  String.mk (s.data.take n)

/-- str.split(c) for a one-character separator, on the character list:
yields the (always non-empty) list of chunks between occurrences of c. -/
def splitOnCharAux (c : Char) : List Char → List Char → List String
  | [], acc => [String.mk acc.reverse]
  | x :: xs, acc =>
    if x = c then String.mk acc.reverse :: splitOnCharAux c xs []
    else splitOnCharAux c xs (x :: acc)

/-- str.split(c) for a one-character separator. -/
def splitOnChar (c : Char) (s : String) : List String :=
  splitOnCharAux c s.data []

/-- sep.join(parts), on plain string append. -/
def strIntercalate (sep : String) : List String → String
  | [] => ""
  | x :: xs => List.foldl (fun a b => a ++ sep ++ b) x xs

/-- posixpath.split: split off the component after the last slash; the head
keeps a run of leading slashes but drops trailing ones otherwise. -/
def pySplit (p : String) : String × String :=
  let cs := p.data
  let tail := (cs.reverse.takeWhile (fun c => c ≠ '/')).reverse
  let headRaw := cs.take (cs.length - tail.length)
  let head :=
    if headRaw ≠ [] ∧ headRaw.any (fun c => c ≠ '/') then
      (headRaw.reverse.dropWhile (fun c => c = '/')).reverse
    else headRaw
  (String.mk head, String.mk tail)

/-- os.path.split(p)[0]. -/
def pyDirname (p : String) : String := (pySplit p).1

/-- posixpath.join of two components. -/
def pyJoin2 (a b : String) : String :=
  if strStartsWith b "/" then b
  else if a = "" ∨ strEndsWith a "/" then a ++ b
  else a ++ "/" ++ b

/-- posixpath.join of a non-empty argument list, folding left as CPython
does. -/
def pyJoinList : List String → String
  | [] => ""
  | p :: rest => rest.foldl pyJoin2 p

/-- os.makedirs helper: create the parent chain, then the directory itself
when missing.  Fuel decreases along the strictly shrinking dirname chain.
The EEXIST race branch of os.makedirs is not reachable here because every
call site guards on os.path.exists first, so mkdir-on-existing is modelled
as a no-op. -/
def makedirsAux : Nat → Fs → String → Fs
  | 0, fs, _ => fs
  | fuel + 1, fs, p =>
    let parent := pyDirname p
    let fs1 :=
      if parent ≠ "" ∧ parent ≠ p ∧ ¬ osPathExists fs parent then
        makedirsAux fuel fs parent
      else fs
    if (fs1.lookup p).isSome then fs1 else fs1.insert p (Entry.dir 0o755)

/-- os.makedirs. -/
def makedirs (fs : Fs) (p : String) : Fs :=
  makedirsAux (p.length + 1) fs p

/-- Uncaught Python exceptions the embedded code can raise. -/
inductive PyErr where
  /-- OSError with errno EEXIST, from os.symlink on an existing name. -/
  | eexist
  /-- ValueError, from unpacking digest.split into two names. -/
  | valueError
deriving Repr, DecidableEq

instance {ε α : Type} [DecidableEq ε] [DecidableEq α] : DecidableEq (Except ε α) :=
  fun x y =>
    match x, y with
    | Except.ok a, Except.ok b =>
      if h : a = b then isTrue (by rw [h]) else isFalse (fun hc => h (Except.ok.inj hc))
    | Except.error a, Except.error b =>
      if h : a = b then isTrue (by rw [h]) else isFalse (fun hc => h (Except.error.inj hc))
    | Except.ok _, Except.error _ => isFalse (fun hc => Except.noConfusion hc)
    | Except.error _, Except.ok _ => isFalse (fun hc => Except.noConfusion hc)

/-- os.symlink target name: creates a symlink binding, raising EEXIST when
the name is already bound (even to a dangling symlink: the link call does
not follow the final component). -/
def osSymlink (fs : Fs) (target name : String) : Except PyErr Fs :=
  if (fs.lookup name).isSome then Except.error PyErr.eexist
  else Except.ok (fs.insert name (Entry.symlink target))

/-- ImageInfo from publisher.py: registry, namespace, project, optional
pre-known digest, tag.  The Python attribute "namespace" is a Lean keyword
and is spelled nspace here. -/
structure ImageInfo where
  registry : String
  nspace : String
  project : String
  digest : Option String
  tag : String
deriving Repr, DecidableEq

/-- ImageInfo.name: slash-join of the non-empty components among registry,
namespace, project, then a colon and the tag (filter(None, ...) drops empty
strings). -/
def ImageInfo.name (i : ImageInfo) : String :=
  strIntercalate "/" (List.filter (fun s => s ≠ "") [i.registry, i.nspace, i.project])
    ++ ":" ++ i.tag

/-- The external commands the publisher shells out to, recorded in a trace
so theorems can state which collaborators a run invoked. -/
inductive Event where
  /-- os.system cvmfs_server abort -f filesystem. -/
  | cmdAbort (filesystem : String)
  /-- os.system cvmfs_server transaction filesystem. -/
  | cmdTransaction (filesystem : String)
  /-- os.system cvmfs_server publish filesystem. -/
  | cmdPublish (filesystem : String)
  /-- os.system singularity build --sandbox image_dir docker://image. -/
  | cmdBuild (image_dir image : String)
  /-- docker client pull of the named image (digest resolution branch). -/
  | cmdPull (image : String)
  /-- docker client remove of the named image after digest extraction. -/
  | cmdRemove (image : String)
deriving Repr, DecidableEq

/-- The whole mutable world the module touches: the cvmfs filesystem tree,
the process-global _in_txn flag, the persisted in_transaction.lock marker
(a path outside the modelled tree, tracked as a flag), the exit statuses
the external commands will return, the tree the builder materializes
(paths relative to the target directory), and the digest string the docker
resolver would return. -/
structure World where
  fs : Fs
  inTxn : Bool
  lockPresent : Bool
  abortStatus : Nat
  txnStatus : Nat
  publishStatus : Nat
  buildStatus : Nat
  builderOutput : List (String × Entry)
  resolverDigest : String
deriving Repr, DecidableEq

/-- abort_txn: writes a message to stderr and shells out to
cvmfs_server abort, returning its status. -/
def abort_txn (w : World) (filesystem : String) : Nat × World × List Event :=
  (w.abortStatus, w, [Event.cmdAbort filesystem])

/-- start_txn: no-op 0 when _in_txn is already set; otherwise recover a
lingering on-disk transaction via abort_txn (failing with 1 when that
abort fails), then issue cvmfs_server transaction, failing with 1 on a
nonzero status and setting _in_txn on success.  The Python function falls
off the end on success, returning None; None and 0 are both falsy to the
caller and success is modelled as 0. -/
def start_txn (w : World) (filesystem : String) : Nat × World × List Event :=
  if w.inTxn then (0, w, [])
  else
    let recovery : Option (Nat × World × List Event) :=
      if w.lockPresent then
        let (result, w1, ev1) := abort_txn w filesystem
        if result ≠ 0 then some (1, w1, ev1) else none
      else none
    match recovery with
    | some out => out
    | none =>
      let ev0 := if w.lockPresent then [Event.cmdAbort filesystem] else []
      let result := w.txnStatus
      let ev := ev0 ++ [Event.cmdTransaction filesystem]
      if result ≠ 0 then (1, w, ev)
      else (0, { w with inTxn := true }, ev)

/-- publish_txn: when _in_txn is set, clear it first and return the status
of cvmfs_server publish (the flag clears even when that command fails);
otherwise return 0 without issuing anything. -/
def publish_txn (w : World) (filesystem : String) : Nat × World × List Event :=
  if w.inTxn then
    (w.publishStatus, { w with inTxn := false }, [Event.cmdPublish filesystem])
  else (0, w, [])

/-- create_symlink image_dir tag_dir: ensure the parent directory of
tag_dir exists; then create the symlink when the tag path does not exist
(os.path.exists follows links, so a dangling symlink counts as absent and
the raw os.symlink then raises EEXIST); repair an existing symlink whose
target differs; return 1 when a non-symlink occupies the name; return 0
otherwise. -/
def create_symlink (fs : Fs) (image_dir tag_dir : String) : Except PyErr (Nat × Fs) :=
  let parent_dir := pyDirname tag_dir
  let fs0 := if ¬ osPathExists fs parent_dir then makedirs fs parent_dir else fs
  if ¬ osPathExists fs0 tag_dir then
    match osSymlink fs0 image_dir tag_dir with
    | Except.error e => Except.error e
    | Except.ok fs1 => Except.ok (0, fs1)
  else if osIsLink fs0 tag_dir then
    if osReadLink fs0 tag_dir ≠ some image_dir then
      match osSymlink (fs0.remove tag_dir) image_dir tag_dir with
      | Except.error e => Except.error e
      | Except.ok fs1 => Except.ok (0, fs1)
    else Except.ok (0, fs0)
  else Except.ok (1, fs0)

/-- Fix for a regular file mode in the normalization walk: a file with no
read bit at all gains owner-read, any other file keeps its mode. -/
def fix_file_mode (old_mode : Nat) : Nat :=
  if old_mode &&& 0o444 == 0 then old_mode ||| 0o400 else old_mode

/-- Fix for a directory mode in the normalization walk, exactly as the two
successive chmod calls in the source compute it: both new modes are
derived from old_mode, so when both bits are missing the second chmod
overwrites the first and the directory ends at old_mode with only the
owner-write bit added. -/
def fix_dir_mode (old_mode : Nat) : Nat :=
  let afterExec := if old_mode &&& 0o111 == 0 then old_mode ||| 0o100 else old_mode
  if old_mode &&& 0o222 == 0 then old_mode ||| 0o200 else afterExec

/-- A path strictly below root in the tree (what the os.walk loop visits:
everything under image_dir, never image_dir itself). -/
def isUnder (root p : String) : Bool :=
  p != root && strStartsWith p (root ++ "/")

/-- The os.walk normalization pass of write_docker_image: every regular
file strictly under root gets fix_file_mode, every directory gets
fix_dir_mode; symlinks are skipped (the S_ISDIR lstat guard, and a link
listed among filenames carries read bits already). -/
def normalizeTree (fs : Fs) (root : String) : Fs :=
  List.map (fun x =>
    if isUnder root x.1 then
      match x.2 with
      | Entry.file m => (x.1, Entry.file (fix_file_mode m))
      | Entry.dir m => (x.1, Entry.dir (fix_dir_mode m))
      | Entry.symlink t => (x.1, Entry.symlink t)
    else x) fs

/-- The image_path.glob test: some direct child of image_dir/etc whose
name ends in -release and is not hidden exists. -/
def hasOsRelease (fs : Fs) (image_dir : String) : Bool :=
  let etcDir := pyJoin2 image_dir "etc"
  List.any fs (fun x =>
    pyDirname x.1 == etcDir
      && strEndsWith (pySplit x.1).2 "-release"
      && !strStartsWith (pySplit x.1).2 ".")

/-- The fixed mount-point set created inside an OS-like image. -/
def bindpoints : List String := ["srv", "cvmfs", "dev", "proc", "sys"]

/-- Path.mkdir parents=False exist_ok=True: create the directory when the
name is unbound. -/
def mkdirExistOk (fs : Fs) (p : String) : Fs :=
  if (fs.lookup p).isSome then fs else fs.insert p (Entry.dir 0o755)

/-- Path.touch: create an empty regular file when the name is unbound
(touch on an existing file only bumps times, which the model omits). -/
def touchFile (fs : Fs) (p : String) : Fs :=
  if (fs.lookup p).isSome then fs else fs.insert p (Entry.file 0o644)

/-- Install the tree the external builder materializes: each produced
entry, its path relative to the target directory, lands under image_dir.
The builder writes whatever it got to before exiting, so the output is
installed whether or not the build status is zero (a failed build leaves a
partially populated directory). -/
def installBuilderOutput (fs : Fs) (image_dir : String) (out : List (String × Entry)) : Fs :=
  List.foldl (fun acc x => Fs.insert acc (pyJoin2 image_dir x.1) x.2) fs out

/-- The post-build success transformation of write_docker_image, factored
out so that theorems can name it: normalize the walk, chmod the root to
0o755, add the bind points for an OS-like tree, touch the sentinel. -/
def postBuildFs (fs : Fs) (image_dir : String) : Fs :=
  let fs1 := normalizeTree fs image_dir
  let fs2 := fs1.chmod image_dir 0o755
  let fs3 :=
    if hasOsRelease fs2 image_dir then
      List.foldl (fun acc b => mkdirExistOk acc (pyJoin2 image_dir b)) fs2 bindpoints
    else fs2
  touchFile fs3 (pyJoin2 image_dir ".cvmfscatalog")

/-- write_docker_image: shell out to singularity build (returning False on
a nonzero exit status), then normalize permissions over the walk, chmod
the root to 0o755, add the bind points when the tree looks like an OS
root, touch the .cvmfscatalog sentinel, and return True. -/
def write_docker_image (w : World) (image_dir : String) (_filesystem : String)
    (image : String) : Bool × World × List Event :=
  let ev := [Event.cmdBuild image_dir image]
  let fsB := installBuilderOutput w.fs image_dir w.builderOutput
  if w.buildStatus ≠ 0 then (false, { w with fs := fsB }, ev)
  else (true, { w with fs := postBuildFs fsB image_dir }, ev)

/-- The relative digest directory: .digests/hash_alg/hash[0:2]/hash. -/
def digestPathOf (hash_alg hash : String) : String :=
  pyJoinList [".digests", hash_alg, strTake hash 2, hash]

/-- The absolute content directory, as lines 171-173 compute it: note it
contains the namespace and project of the requesting image. -/
def imageDirOf (filesystem rootdir : String) (info : ImageInfo)
    (hash_alg hash : String) : String :=
  pyJoinList ["/cvmfs", filesystem, rootdir, info.nspace, info.project,
    digestPathOf hash_alg hash]

/-- The tag path for an image. -/
def tagDirOf (filesystem rootdir : String) (info : ImageInfo) : String :=
  pyJoinList ["/cvmfs", filesystem, rootdir, info.nspace, info.project, info.tag]

/-- publish_docker_image: resolve the digest (caller-supplied, or via a
docker pull that is removed after reading RepoDigests), unpack it at the
colon (a ValueError when the split is not exactly two parts), start the
transaction (returning its status when nonzero), compute the digest path,
and only when the content directory does not exist: makedirs it, build,
and on build success create the tag symlink (its return value is
discarded) and publish; on build failure abort.  Every other path,
including the directory-already-exists branch, falls off the end of the
function returning None. -/
def publish_docker_image (w : World) (image_info : ImageInfo)
    (filesystem : String) (rootdir : String) :
    Except PyErr (Option Nat × World × List Event) :=
  let (digest, evPull) :=
    match image_info.digest with
    | some d => (d, [])
    | none => (w.resolverDigest,
        [Event.cmdPull image_info.name, Event.cmdRemove image_info.name])
  match splitOnChar ':' digest with
  | [hash_alg, hash] =>
    let (retval, w1, ev1) := start_txn w filesystem
    if retval ≠ 0 then Except.ok (some retval, w1, evPull ++ ev1)
    else
      let digest_path := digestPathOf hash_alg hash
      let image_dir := imageDirOf filesystem rootdir image_info hash_alg hash
      if ¬ osPathExists w1.fs image_dir then
        let w2 := { w1 with fs := makedirs w1.fs image_dir }
        let (ok, w3, ev2) := write_docker_image w2 image_dir filesystem image_info.name
        if ok then
          let tag_dir := tagDirOf filesystem rootdir image_info
          match create_symlink w3.fs digest_path tag_dir with
          | Except.error e => Except.error e
          | Except.ok (_, fs4) =>
            let (_, w5, ev3) := publish_txn { w3 with fs := fs4 } filesystem
            Except.ok (none, w5, evPull ++ ev1 ++ ev2 ++ ev3)
        else
          let (_, w4, ev3) := abort_txn w3 filesystem
          Except.ok (none, w4, evPull ++ ev1 ++ ev2 ++ ev3)
      else Except.ok (none, w1, evPull ++ ev1)
  | _ => Except.error PyErr.valueError

/-- An entry that is not a symbolic link (a plain file or a directory). -/
def isNonLink : Entry → Bool
  | Entry.symlink _ => false
  | _ => true

/-- Event trace of a publish run (empty when the run raised). -/
def traceOf (r : Except PyErr (Option Nat × World × List Event)) : List Event :=
  match r with
  | Except.ok (_, _, ev) => ev
  | Except.error _ => []

/-- Returned value of a publish run, when it did not raise. -/
def retOf (r : Except PyErr (Option Nat × World × List Event)) : Option (Option Nat) :=
  match r with
  | Except.ok (v, _, _) => some v
  | Except.error _ => none

/-- Final filesystem of a publish run (empty when the run raised). -/
def finalFsOf (r : Except PyErr (Option Nat × World × List Event)) : Fs :=
  match r with
  | Except.ok (_, w, _) => w.fs
  | Except.error _ => []

/-- Final in-transaction flag of a publish run. -/
def finalInTxnOf (r : Except PyErr (Option Nat × World × List Event)) : Bool :=
  match r with
  | Except.ok (_, w, _) => w.inTxn
  | Except.error _ => false

/-- Filesystem produced by a create_symlink run, when it did not raise. -/
def linkFsOf (r : Except PyErr (Nat × Fs)) : Fs :=
  match r with
  | Except.ok (_, fs) => fs
  | Except.error _ => []

/-- A world with a fresh, empty store and all external commands set to
succeed. -/
def freshWorld : World :=
  { fs := [], inTxn := false, lockPresent := false, abortStatus := 0,
    txnStatus := 0, publishStatus := 0, buildStatus := 0,
    builderOutput := [], resolverDigest := "" }

/-- An image request under namespace n, project p, with a pre-known digest
and tag other. -/
def infoOther : ImageInfo :=
  { registry := "", nspace := "n", project := "p",
    digest := some "sha256:abcd", tag := "other" }

/-- The content directory for digest sha256:abcd under namespace n,
project p, filesystem f, empty rootdir. -/
def dirAbcd : String := "/cvmfs/f/n/p/.digests/sha256/ab/abcd"

/-- World of the second-publish scenario: the content directory for
sha256:abcd already exists in the store. -/
def wSecond : World := { freshWorld with fs := [(dirAbcd, Entry.dir 0o755)] }

/-- World of the occupied-tag scenario: empty store except a plain file
occupying the tag path for infoOther. -/
def wOccupied : World :=
  { freshWorld with fs := [("/cvmfs/f/n/p/other", Entry.file 0o644)] }

/-- World of the failed-build scenario: empty store, builder exits 1 after
materializing one partial file. -/
def wBadBuild : World :=
  { freshWorld with buildStatus := 1, builderOutput := [("sub", Entry.file 0o644)] }

/-- World of the recovery scenario: a persisted in_transaction.lock with
no in-memory open transaction, and an abort that will fail with status 1. -/
def wRecover : World := { freshWorld with lockPresent := true, abortStatus := 1 }

/-- World for exercising the permission walk directly: the target
directory pre-made (as publish does with makedirs) and a builder that
produces a subdirectory with mode 0o000. -/
def wModes : World :=
  { freshWorld with
    fs := [(dirAbcd, Entry.dir 0o755)]
    builderOutput := [("sub", Entry.dir 0o000)] }

/-- An image request identical to infoOther except for the namespace. -/
def infoOtherNsB : ImageInfo := { infoOther with nspace := "b" }

/-- An image request whose digest carries an algorithm outside the
recognized set. -/
def infoBadAlg : ImageInfo := { infoOther with digest := some "md5:zz" }

/-- An image request whose digest has an empty hash part. -/
def infoEmptyHash : ImageInfo := { infoOther with digest := some "sha256:" }

/-- An image request whose digest string has no colon at all. -/
def infoNoColon : ImageInfo := { infoOther with digest := some "sha256abcd" }

/-- The failed-build world for the unrecognized-algorithm request. -/
def wBadAlgBuild : World := { freshWorld with buildStatus := 1 }

/-- Filesystem produced by the tag-link step of the occupied-tag publish
run: the store after makedirs, the successful build, and the refused
create_symlink (which leaves it unchanged). -/
def occLinkRunFs : Fs :=
  linkFsOf (create_symlink
    (postBuildFs
      (installBuilderOutput (makedirs wOccupied.fs dirAbcd) dirAbcd wOccupied.builderOutput)
      dirAbcd)
    (digestPathOf "sha256" "abcd") (tagDirOf "f" "" infoOther))

theorem existsPath_succ (fs : Fs) (n : Nat) (p : String) :
    fs.existsPath (n + 1) p =
      (match fs.lookup p with
       | none => false
       | some (Entry.symlink t) => fs.existsPath n t
       | some _ => true) := rfl

theorem osPathExists_of_nonlink (fs : Fs) (p : String) (e : Entry)
    (h : fs.lookup p = some e) (he : isNonLink e = true) :
    osPathExists fs p = true := by
  rw [osPathExists, show (40 : Nat) = 39 + 1 from rfl, existsPath_succ, h]
  cases e <;> simp_all [isNonLink]

theorem osPathExists_dangling (fs : Fs) (p t : String)
    (h1 : fs.lookup p = some (Entry.symlink t)) (h2 : fs.lookup t = none) :
    osPathExists fs p = false := by
  rw [osPathExists, show (40 : Nat) = 39 + 1 from rfl, existsPath_succ, h1]
  show fs.existsPath 39 t = false
  rw [show (39 : Nat) = 38 + 1 from rfl, existsPath_succ, h2]

theorem start_txn_fresh (w : World) (n : String)
    (h1 : w.inTxn = false) (h2 : w.lockPresent = false) (h3 : w.txnStatus = 0) :
    start_txn w n = (0, { w with inTxn := true }, [Event.cmdTransaction n]) := by
  simp [start_txn, h1, h2, h3]

theorem write_docker_image_success (w : World) (image_dir fsn img : String)
    (h : w.buildStatus = 0) :
    write_docker_image w image_dir fsn img =
      (true,
       { w with fs := postBuildFs (installBuilderOutput w.fs image_dir w.builderOutput) image_dir },
       [Event.cmdBuild image_dir img]) := by
  simp [write_docker_image, h]

theorem write_docker_image_failure (w : World) (image_dir fsn img : String)
    (h : w.buildStatus ≠ 0) :
    write_docker_image w image_dir fsn img =
      (false,
       { w with fs := installBuilderOutput w.fs image_dir w.builderOutput },
       [Event.cmdBuild image_dir img]) := by
  simp [write_docker_image, h]

theorem find?_filter_ne (p q : String) (hq : q ≠ p) :
    ∀ fs : List (String × Entry),
      List.find? (fun x => x.1 == q) (List.filter (fun x => x.1 != p) fs)
        = List.find? (fun x => x.1 == q) fs := by
  intro fs
  induction fs with
  | nil => rfl
  | cons a tl ih =>
    by_cases haq : a.1 = q
    · have hap : (a.1 != p) = true := by simp [haq, hq]
      simp [List.filter_cons, hap, List.find?_cons, haq, hq]
    · by_cases hap : a.1 = p
      · have hpq : (p == q) = false := beq_eq_false_iff_ne.mpr (Ne.symm hq)
        simp [List.filter_cons, hap, List.find?_cons, haq, ih, hpq]
      · simp [List.filter_cons, hap, List.find?_cons, haq, ih]

theorem Fs.lookup_insert_self (fs : Fs) (p : String) (e : Entry) :
    (fs.insert p e).lookup p = some e := by
  simp [Fs.insert, Fs.lookup, List.find?_cons]

theorem Fs.lookup_insert_ne (fs : Fs) (p q : String) (e : Entry) (hq : q ≠ p) :
    (fs.insert p e).lookup q = fs.lookup q := by
  have hpq : (p == q) = false := by
    simp [Ne.symm hq]
  simp only [Fs.insert, Fs.lookup, List.find?_cons, hpq]
  rw [find?_filter_ne p q hq fs]

theorem lookup_isSome_insert (fs : Fs) (p q : String) (e : Entry)
    (h : (fs.lookup q).isSome = true) :
    ((fs.insert p e).lookup q).isSome = true := by
  by_cases hq : q = p
  · subst hq; rw [Fs.lookup_insert_self]; rfl
  · rw [Fs.lookup_insert_ne fs p q e hq]; exact h

theorem makedirsAux_lookup_isSome (n : Nat) (fs : Fs) (p : String) :
    ((makedirsAux (n + 1) fs p).lookup p).isSome = true := by
  simp only [makedirsAux]
  split <;> split <;> first | assumption | simp [Fs.lookup_insert_self]

theorem makedirs_lookup_isSome (fs : Fs) (p : String) :
    ((makedirs fs p).lookup p).isSome = true :=
  makedirsAux_lookup_isSome p.length fs p

theorem installBuilderOutput_lookup_isSome (out : List (String × Entry))
    (fs : Fs) (image_dir q : String)
    (h : (fs.lookup q).isSome = true) :
    ((installBuilderOutput fs image_dir out).lookup q).isSome = true := by
  induction out generalizing fs with
  | nil => exact h
  | cons x xs ih =>
    exact ih (Fs.insert fs (pyJoin2 image_dir x.1) x.2)
      (lookup_isSome_insert fs (pyJoin2 image_dir x.1) q x.2 h)

/-- C1: the publish orchestrator takes the directory-already-exists branch
and then does nothing at all: with the content directory for sha256:abcd
already in the store, a publish under the tag other returns None right
after starting a transaction — the final filesystem is exactly the initial
one (so no tag symlink is created; the lookup conjunct makes that
explicit), the trace holds only the cvmfs_server transaction command (so
neither the builder, nor cvmfs_server publish, nor abort is invoked), and
the in-memory transaction flag is left set: the claimed symlink creation
and commit never happen. -/
theorem C1_second_publish_no_symlink_no_commit :
    publish_docker_image wSecond infoOther "f" "" =
      Except.ok (none, { wSecond with inTxn := true }, [Event.cmdTransaction "f"])
    ∧ Fs.lookup wSecond.fs (tagDirOf "f" "" infoOther) = none := by
  decide

/-- C3: the content-directory path is not a function of the store root and
digest alone — two requests with the identical digest sha256:abcd but
namespaces n and b compute different content directories, because lines
171-173 join the namespace and project into the path. -/
theorem C3_namespace_changes_content_path :
    imageDirOf "f" "" infoOther "sha256" "abcd"
      ≠ imageDirOf "f" "" infoOtherNsB "sha256" "abcd" := by
  decide

/-- C3 amended: the content-directory path is a function of the filesystem
name, the root subdirectory, the namespace, the project, and the digest
alone — it does not depend on the registry, the tag, or the stored digest
field of the request. -/
theorem C3_amended_path_ignores_registry_and_tag
    (f r ns proj alg hsh : String) (reg1 reg2 tag1 tag2 : String)
    (d1 d2 : Option String) :
    imageDirOf f r
        { registry := reg1, nspace := ns, project := proj, digest := d1, tag := tag1 }
        alg hsh
      = imageDirOf f r
        { registry := reg2, nspace := ns, project := proj, digest := d2, tag := tag2 }
        alg hsh := rfl

/-- C6: publish_txn leaves the filesystem untouched, always ends with the
in-memory flag Idle (even when the underlying cvmfs_server publish fails),
issues the underlying publish command exactly when the flag was Open (and
then exactly once), returns that command's status when Open and 0 when
Idle, and changes nothing besides the flag. -/
theorem C6_publish_txn_frame (w : World) (n : String) :
    (publish_txn w n).2.1.inTxn = false
    ∧ (publish_txn w n).2.1.fs = w.fs
    ∧ (publish_txn w n).2.2 = (if w.inTxn then [Event.cmdPublish n] else [])
    ∧ (publish_txn w n).1 = (if w.inTxn then w.publishStatus else 0)
    ∧ { (publish_txn w n).2.1 with inTxn := w.inTxn } = w := by
  obtain ⟨fs, itx, lp, sa, st, sp, sb, bo, rd⟩ := w
  cases itx <;> simp [publish_txn]

/-- C7: when the tag path is occupied by an existing non-symlink entry
(and its parent directory exists, as it must for the entry to exist),
create_symlink returns 1 and the filesystem it returns is exactly the one
it was given — no modification of any kind. -/
theorem C7_occupied_tag_refused (fs : Fs) (image_dir tag_dir : String) (e : Entry)
    (hparent : osPathExists fs (pyDirname tag_dir) = true)
    (hocc : fs.lookup tag_dir = some e)
    (hnl : isNonLink e = true) :
    create_symlink fs image_dir tag_dir = Except.ok (1, fs) := by
  have hex : osPathExists fs tag_dir = true := osPathExists_of_nonlink fs tag_dir e hocc hnl
  have hlink : osIsLink fs tag_dir = false := by
    rw [osIsLink, hocc]
    cases e <;> simp_all [isNonLink]
  simp [create_symlink, hparent, hex, hlink]

/-- C7 witness: a store where the tag name a/t is occupied by a plain
file; create_symlink refuses with 1 and returns the store unchanged. -/
theorem C7_occupied_tag_refused_witness :
    create_symlink [("a", Entry.dir 0o755), ("a/t", Entry.file 0o644)] "target" "a/t"
      = Except.ok (1, [("a", Entry.dir 0o755), ("a/t", Entry.file 0o644)]) :=
  C7_occupied_tag_refused [("a", Entry.dir 0o755), ("a/t", Entry.file 0o644)]
    "target" "a/t" (Entry.file 0o644) (by decide) (by decide) (by decide)

/-- C10: when the tag path is a dangling symbolic link (the name is bound
to a symlink whose target is absent) and the parent directory exists, the
os.path.exists check follows the link and reports the path absent, so
create_symlink calls os.symlink on the still-occupied name and the run
ends in an uncaught OSError with errno EEXIST — none of the documented
outcomes 0 or 1 is returned and the link is not repaired. -/
theorem C10_dangling_symlink_raises_eexist (fs : Fs) (image_dir tag_dir t : String)
    (hparent : osPathExists fs (pyDirname tag_dir) = true)
    (hlink : fs.lookup tag_dir = some (Entry.symlink t))
    (hgone : fs.lookup t = none) :
    create_symlink fs image_dir tag_dir = Except.error PyErr.eexist := by
  have hex : osPathExists fs tag_dir = false := osPathExists_dangling fs tag_dir t hlink hgone
  have hsome : (fs.lookup tag_dir).isSome = true := by rw [hlink]; rfl
  simp [create_symlink, hparent, hex, osSymlink, hsome]

/-- C10 witness: the tag a/t is a symlink to the absent name gone;
create_symlink raises EEXIST. -/
theorem C10_dangling_symlink_raises_eexist_witness :
    create_symlink [("a", Entry.dir 0o755), ("a/t", Entry.symlink "gone")] "target" "a/t"
      = Except.error PyErr.eexist :=
  C10_dangling_symlink_raises_eexist [("a", Entry.dir 0o755), ("a/t", Entry.symlink "gone")]
    "target" "a/t" "gone" (by decide) (by decide) (by decide)

/-- C9: the directory branch of the normalization walk computes both
corrective modes from the stale old mode, so a directory that lacks both
the execute bits and the write bits ends with mode 0o200 — the second
chmod overwrites the owner-execute bit the first one added.  Concretely:
fix_dir_mode sends 0o000 to 0o200, a mode with no execute bit, and a
successful write_docker_image run over a builder tree holding a directory
sub with mode 0o000 leaves sub at mode 0o200 instead of gaining both
owner-execute and owner-write as the claim states. -/
theorem C9_dir_mode_walk_drops_exec_bit :
    fix_dir_mode 0o000 = 0o200
    ∧ 0o200 &&& 0o100 = 0
    ∧ Fs.lookup (write_docker_image wModes dirAbcd "f" "n/p:other").2.1.fs
        (pyJoin2 dirAbcd "sub") = some (Entry.dir 0o200)
    ∧ (write_docker_image wModes dirAbcd "f" "n/p:other").1 = true := by
  decide

theorem publish_run_aborts_on_failed_build
    (w : World) (info : ImageInfo) (f r d alg hsh : String)
    (hd : info.digest = some d)
    (hsplit : splitOnChar ':' d = [alg, hsh])
    (hitx : w.inTxn = false) (hlock : w.lockPresent = false) (htxn : w.txnStatus = 0)
    (hmiss : osPathExists w.fs (imageDirOf f r info alg hsh) = false)
    (hbuild : w.buildStatus ≠ 0) :
    publish_docker_image w info f r =
      Except.ok (none,
        { w with
          fs := installBuilderOutput (makedirs w.fs (imageDirOf f r info alg hsh))
              (imageDirOf f r info alg hsh) w.builderOutput
          inTxn := true },
        [Event.cmdTransaction f, Event.cmdBuild (imageDirOf f r info alg hsh) info.name,
         Event.cmdAbort f]) := by
  simp only [publish_docker_image, hd, hsplit]
  rw [start_txn_fresh w f hitx hlock htxn]
  simp [hmiss, write_docker_image_failure, abort_txn, hbuild]

/-- C4: start_txn with the in-memory flag clear and the persisted
in_transaction.lock present invokes the recovery abort first; when that
abort returns nonzero, start_txn returns 1 without issuing the underlying
cvmfs_server transaction command; when the abort succeeds, the trace is
exactly the abort followed by the fresh transaction command. -/
theorem C4_begin_recovers_before_fresh_begin (w : World) (n : String)
    (h1 : w.inTxn = false) (h2 : w.lockPresent = true) :
    (start_txn w n).2.2.head? = some (Event.cmdAbort n)
    ∧ (w.abortStatus ≠ 0 → start_txn w n = (1, w, [Event.cmdAbort n]))
    ∧ (w.abortStatus = 0 →
        (start_txn w n).2.2 = [Event.cmdAbort n, Event.cmdTransaction n]) := by
  by_cases ha : w.abortStatus = 0 <;>
    by_cases ht : w.txnStatus = 0 <;>
      simp [start_txn, abort_txn, h1, h2, ha, ht]

/-- C4 witness: flag clear, lock present, abort bound to fail with 1 —
start_txn returns 1 after only the abort command. -/
theorem C4_begin_recovers_before_fresh_begin_witness :
    start_txn wRecover "f" = (1, wRecover, [Event.cmdAbort "f"]) :=
  (C4_begin_recovers_before_fresh_begin wRecover "f" rfl rfl).2.1 (by decide)

/-- C2 counterexample: with the tag path occupied by a plain file (so the
tag-linking step returns the failure code 1), publish still commits — the
trace of the run holds the cvmfs_server publish command and no abort, the
returned value is None rather than a link-failure error, and the occupying
file is untouched at the tag path, which confirms the link step failed. -/
theorem C2_link_failure_still_commits :
    retOf (publish_docker_image wOccupied infoOther "f" "") = some none
    ∧ Event.cmdPublish "f" ∈ traceOf (publish_docker_image wOccupied infoOther "f" "")
    ∧ Event.cmdAbort "f" ∉ traceOf (publish_docker_image wOccupied infoOther "f" "")
    ∧ Fs.lookup (finalFsOf (publish_docker_image wOccupied infoOther "f" ""))
        (tagDirOf "f" "" infoOther) = some (Entry.file 0o644) := by
  decide

/-- C2 amended: when the build succeeds but the tag-linking step returns
the failure code 1, the orchestrator ignores that value: it still invokes
the underlying commit (the cvmfs_server publish command is in the trace,
exactly once, and no abort is), and the run returns None, surfacing no
link-failure error. -/
theorem C2_amended_link_failure_ignored_and_committed
    (w : World) (info : ImageInfo) (f r d alg hsh : String) (fs4 : Fs)
    (hd : info.digest = some d)
    (hsplit : splitOnChar ':' d = [alg, hsh])
    (hitx : w.inTxn = false) (hlock : w.lockPresent = false) (htxn : w.txnStatus = 0)
    (hmiss : osPathExists w.fs (imageDirOf f r info alg hsh) = false)
    (hbuild : w.buildStatus = 0)
    (hlink : create_symlink
        (postBuildFs
          (installBuilderOutput (makedirs w.fs (imageDirOf f r info alg hsh))
            (imageDirOf f r info alg hsh) w.builderOutput)
          (imageDirOf f r info alg hsh))
        (digestPathOf alg hsh) (tagDirOf f r info) = Except.ok (1, fs4)) :
    publish_docker_image w info f r =
      Except.ok (none,
        { w with
          fs := fs4
          inTxn := false },
        [Event.cmdTransaction f, Event.cmdBuild (imageDirOf f r info alg hsh) info.name,
         Event.cmdPublish f])
    ∧ Event.cmdAbort f ∉
        ([Event.cmdTransaction f, Event.cmdBuild (imageDirOf f r info alg hsh) info.name,
          Event.cmdPublish f] : List Event) := by
  refine ⟨?_, by simp⟩
  simp only [publish_docker_image, hd, hsplit]
  rw [start_txn_fresh w f hitx hlock htxn]
  simp [hmiss, write_docker_image_success, publish_txn, hbuild, hlink]

/-- C2 amended witness: the occupied-tag scenario run in full — publish
returns None with the commit command in its trace. -/
theorem C2_amended_link_failure_ignored_and_committed_witness :
    publish_docker_image wOccupied infoOther "f" "" =
      Except.ok (none,
        { wOccupied with
          fs := occLinkRunFs
          inTxn := false },
        [Event.cmdTransaction "f",
         Event.cmdBuild (imageDirOf "f" "" infoOther "sha256" "abcd") infoOther.name,
         Event.cmdPublish "f"]) :=
  (C2_amended_link_failure_ignored_and_committed wOccupied infoOther "f" ""
    "sha256:abcd" "sha256" "abcd" occLinkRunFs rfl (by decide) rfl rfl rfl
    (by decide) rfl (by decide)).1

/-- C5 counterexample: with the builder failing, the run does abort, never
commits, creates no tag symlink, and leaves the partially populated digest
directory (with the partial file sub inside it) on disk — but it returns
None, not a build-failure error, so the caller cannot tell this run from a
successful one by its return value. -/
theorem C5_build_failure_returns_no_error :
    retOf (publish_docker_image wBadBuild infoOther "f" "") = some none
    ∧ Event.cmdAbort "f" ∈ traceOf (publish_docker_image wBadBuild infoOther "f" "")
    ∧ Event.cmdPublish "f" ∉ traceOf (publish_docker_image wBadBuild infoOther "f" "")
    ∧ Fs.lookup (finalFsOf (publish_docker_image wBadBuild infoOther "f" ""))
        (tagDirOf "f" "" infoOther) = none
    ∧ (Fs.lookup (finalFsOf (publish_docker_image wBadBuild infoOther "f" "")) dirAbcd).isSome
        = true
    ∧ Fs.lookup (finalFsOf (publish_docker_image wBadBuild infoOther "f" ""))
        (pyJoin2 dirAbcd "sub") = some (Entry.file 0o644) := by
  decide

/-- C5 amended: on builder failure the transaction is aborted (exactly the
abort command closes the trace and no publish command appears), no tag
symlink is created (the final filesystem is exactly the makedirs result
plus what the builder wrote under the digest directory), the partially
populated digest directory is left in place — and publish returns None
rather than a build-failure error. -/
theorem C5_amended_build_failure_aborts_returning_none
    (w : World) (info : ImageInfo) (f r d alg hsh : String)
    (hd : info.digest = some d)
    (hsplit : splitOnChar ':' d = [alg, hsh])
    (hitx : w.inTxn = false) (hlock : w.lockPresent = false) (htxn : w.txnStatus = 0)
    (hmiss : osPathExists w.fs (imageDirOf f r info alg hsh) = false)
    (hbuild : w.buildStatus ≠ 0) :
    publish_docker_image w info f r =
      Except.ok (none,
        { w with
          fs := installBuilderOutput (makedirs w.fs (imageDirOf f r info alg hsh))
              (imageDirOf f r info alg hsh) w.builderOutput
          inTxn := true },
        [Event.cmdTransaction f, Event.cmdBuild (imageDirOf f r info alg hsh) info.name,
         Event.cmdAbort f])
    ∧ Event.cmdPublish f ∉
        ([Event.cmdTransaction f, Event.cmdBuild (imageDirOf f r info alg hsh) info.name,
          Event.cmdAbort f] : List Event)
    ∧ ((installBuilderOutput (makedirs w.fs (imageDirOf f r info alg hsh))
          (imageDirOf f r info alg hsh) w.builderOutput).lookup
            (imageDirOf f r info alg hsh)).isSome = true := by
  refine ⟨publish_run_aborts_on_failed_build w info f r d alg hsh
    hd hsplit hitx hlock htxn hmiss hbuild, by simp, ?_⟩
  exact installBuilderOutput_lookup_isSome w.builderOutput _ _ _
    (makedirs_lookup_isSome w.fs (imageDirOf f r info alg hsh))

/-- C5 amended witness: the failed-build scenario run in full. -/
theorem C5_amended_build_failure_aborts_returning_none_witness :
    publish_docker_image wBadBuild infoOther "f" "" =
      Except.ok (none,
        { wBadBuild with
          fs := installBuilderOutput
              (makedirs wBadBuild.fs (imageDirOf "f" "" infoOther "sha256" "abcd"))
              (imageDirOf "f" "" infoOther "sha256" "abcd") wBadBuild.builderOutput
          inTxn := true },
        [Event.cmdTransaction "f",
         Event.cmdBuild (imageDirOf "f" "" infoOther "sha256" "abcd") infoOther.name,
         Event.cmdAbort "f"]) :=
  (C5_amended_build_failure_aborts_returning_none wBadBuild infoOther "f" ""
    "sha256:abcd" "sha256" "abcd" rfl (by decide) rfl rfl rfl (by decide)
    (by decide)).1

/-- C8 counterexample: a digest with the unrecognized algorithm md5 is not
rejected — the run returns None (there is no InvalidDigest error anywhere
in the code), the trace shows a transaction was begun, and the content
directory for the bogus digest was created on disk; a digest with an empty
hash part is likewise accepted and begins a transaction; the only rejected
shape is a digest without a colon, which raises an uncaught ValueError
from the two-name unpacking rather than returning an error. -/
theorem C8_invalid_digest_not_rejected :
    retOf (publish_docker_image wBadAlgBuild infoBadAlg "f" "") = some none
    ∧ Event.cmdTransaction "f" ∈ traceOf (publish_docker_image wBadAlgBuild infoBadAlg "f" "")
    ∧ (Fs.lookup (finalFsOf (publish_docker_image wBadAlgBuild infoBadAlg "f" ""))
        "/cvmfs/f/n/p/.digests/md5/zz/zz").isSome = true
    ∧ retOf (publish_docker_image wBadAlgBuild infoEmptyHash "f" "") = some none
    ∧ Event.cmdTransaction "f" ∈ traceOf (publish_docker_image wBadAlgBuild infoEmptyHash "f" "")
    ∧ publish_docker_image wBadAlgBuild infoNoColon "f" "" = Except.error PyErr.valueError := by
  decide

/-- C8 amended: publish_docker_image performs no digest validation at all:
for every algorithm and hash string whatsoever (unrecognized algorithms
and the empty hash included), the run begins a transaction and creates the
content directory, and returns None instead of any InvalidDigest error
(shown here on the aborting build-failure path, which touches the
filesystem exactly as far as the digest-directory creation). -/
theorem C8_amended_any_digest_accepted_and_acted_on
    (w : World) (info : ImageInfo) (f r d alg hsh : String)
    (hd : info.digest = some d)
    (hsplit : splitOnChar ':' d = [alg, hsh])
    (hitx : w.inTxn = false) (hlock : w.lockPresent = false) (htxn : w.txnStatus = 0)
    (hmiss : osPathExists w.fs (imageDirOf f r info alg hsh) = false)
    (hbuild : w.buildStatus ≠ 0) :
    Event.cmdTransaction f ∈ traceOf (publish_docker_image w info f r)
    ∧ ((finalFsOf (publish_docker_image w info f r)).lookup
        (imageDirOf f r info alg hsh)).isSome = true
    ∧ retOf (publish_docker_image w info f r) = some none := by
  rw [publish_run_aborts_on_failed_build w info f r d alg hsh
    hd hsplit hitx hlock htxn hmiss hbuild]
  refine ⟨by simp [traceOf], ?_, rfl⟩
  simp only [finalFsOf]
  exact installBuilderOutput_lookup_isSome w.builderOutput _ _ _
    (makedirs_lookup_isSome w.fs (imageDirOf f r info alg hsh))

/-- C8 amended witness: the md5:zz digest run — transaction begun, content
directory created, None returned. -/
theorem C8_amended_any_digest_accepted_and_acted_on_witness :
    Event.cmdTransaction "f" ∈ traceOf (publish_docker_image wBadAlgBuild infoBadAlg "f" "")
    ∧ ((finalFsOf (publish_docker_image wBadAlgBuild infoBadAlg "f" "")).lookup
        (imageDirOf "f" "" infoBadAlg "md5" "zz")).isSome = true
    ∧ retOf (publish_docker_image wBadAlgBuild infoBadAlg "f" "") = some none :=
  C8_amended_any_digest_accepted_and_acted_on wBadAlgBuild infoBadAlg "f" ""
    "md5:zz" "md5" "zz" rfl (by decide) rfl rfl rfl (by decide) (by decide)

end CvmfsPublisher
